import Mathlib

/-!
Verification development for the rust-mbtileserver repository.

The embedding follows `src/service.rs` (request handling, host access control,
tile/grid dispatch, TileJSON detail assembly) and `src/main.rs` (wiring).
Rust strings (`&str`, `String`) are embedded as `List Char`; byte buffers
(`Vec<u8>`) as `List Nat`.  Machine integers (`u32`) are embedded as `Nat`
with explicit bounds; an arithmetic overflow (which panics in Rust) and any
other panic (`unwrap()` on `None`) are embedded as the `Option` value `none`,
so a handler returning `none` models a crashed request with no response.

The repository's `tiles.rs` and `utils.rs` modules are not present in the
sources; the entities from them that `service.rs` uses (`TileMeta`,
`DataFormat`, `get_tile_data`, `get_grid_data`, `get_blank_image`, `encode`)
are modelled from the spec, as marked on each such definition.
-/

namespace Mbtileserver

/-- Rust string slices embedded as character lists. -/
abbrev Str : Type := List Char

/-- Rust `Vec<u8>` byte buffers embedded as lists of naturals. -/
abbrev Bytes : Type := List Nat

/-- `u32::MAX + 1`: the bound enforced by `parse::<u32>()`. -/
def U32LIM : Nat := 2 ^ 32

/-! ## Host access control (`service.rs`, `is_host_valid`) -/

/-- Rust `str::starts_with`: Boolean prefix test on embedded strings. -/
def strStartsWith (s pat : Str) : Bool := decide (pat <+: s)

/-- Rust `str::ends_with`: Boolean suffix test on embedded strings. -/
def strEndsWith (s pat : Str) : Bool := decide (pat <:+ s)

/-- `host.split(':').next().unwrap()`: the part of the declared host before
the first `:`, i.e. the host with any port suffix stripped. -/
def stripPort (h : Str) : Str := h.takeWhile (fun c => c != ':')

/-- One iteration of the `allowed_hosts` loop body in `is_host_valid`:
the rule matches when it is `*`, when it equals the (port-stripped) host
exactly, or when it starts with `.` and the host ends with the rule minus
that leading dot (`pattern.split_off(1)` drops the dot before `ends_with`). -/
def hostMatches (host : Str) (pat : Str) : Bool :=
  pat == '*' :: [] || pat == host ||
    (strStartsWith pat ('.' :: []) && strEndsWith host (pat.drop 1))

/-- `is_host_valid` from `service.rs`: a missing host header is rejected;
otherwise the port-stripped host is tested against each allow-list rule. -/
def is_host_valid (host : Option Str) (allowed_hosts : List Str) : Bool :=
  match host with
  | none => false
  | some h => allowed_hosts.any (hostMatches (stripPort h))

/-! ## XYZ to TMS row conversion (`service.rs` line 130) -/

/-- `let y: u32 = (1 << z) - 1 - y;` under `u32` semantics: the shift
`1u32 << z` overflows (panics) for `z ≥ 32`, and the unsigned subtraction
`(1 << z) - 1 - y` overflows (panics) for `y ≥ 2^z`.  Overflow is embedded
as `none`. -/
def tmsFlip (z y : Nat) : Option Nat :=
  if z < 32 then
    if y ≤ 2 ^ z - 1 then some (2 ^ z - 1 - y) else none
  else
    none

/-! ## JSON values (`serde_json::Value`) -/

/-- `serde_json::Value`, embedded with objects as association lists of
key/value pairs (`serde_json`'s map abstracted to its lookup/insert
behaviour; key order is irrelevant to every property proved here). -/
inductive JSONValue : Type where
  | null : JSONValue
  | bool (b : Bool) : JSONValue
  | num (n : Int) : JSONValue
  | str (s : Str) : JSONValue
  | arr (xs : List JSONValue) : JSONValue
  | obj (fields : List (Str × JSONValue)) : JSONValue

/-- `serde_json` map lookup on the association-list embedding of an object. -/
def lookupField (fields : List (Str × JSONValue)) (k : Str) : Option JSONValue :=
  match fields with
  | [] => none
  | (k0, v0) :: rest => if k0 == k then some v0 else lookupField rest k

/-- `value[k] = v` on a `serde_json` object: replace the binding of `k` in
place if present, otherwise append a new binding. -/
def setField (fields : List (Str × JSONValue)) (k : Str) (v : JSONValue) :
    List (Str × JSONValue) :=
  match fields with
  | [] => [(k, v)]
  | (k0, v0) :: rest =>
    if k0 == k then (k0, v) :: rest else (k0, v0) :: setField rest k v

/-! ## Collaborators modelled from the spec (`utils.rs`, `tiles.rs` are not
under `src/`) -/

/-- Modelled from the spec: `utils.rs` `DataFormat`, the declared tile or
grid format of a tileset ("content negotiation across image/vector/grid
formats"; unmatched extensions are treated as an unknown raw image format). -/
inductive DataFormat : Type where
  | png : DataFormat
  | jpg : DataFormat
  | webp : DataFormat
  | pbf : DataFormat
  | json : DataFormat
  | gzip : DataFormat
  | unknown (ext : Str) : DataFormat

/-- Modelled from the spec: `DataFormat::new(ext)` classifies a request's
extension string; an unmatched extension is "forwarded to storage as a raw
image extension". -/
def DataFormat.new (ext : Str) : DataFormat :=
  if ext == "png".toList then .png
  else if ext == "jpg".toList then .jpg
  else if ext == "webp".toList then .webp
  else if ext == "pbf".toList then .pbf
  else if ext == "json".toList then .json
  else .unknown ext

/-- Modelled from the spec: `DataFormat::content_type()`, "the content type
derived from the extension". -/
def DataFormat.content_type : DataFormat → Str
  | .png => "image/png".toList
  | .jpg => "image/jpeg".toList
  | .webp => "image/webp".toList
  | .pbf => "application/x-protobuf".toList
  | .json => "application/json".toList
  | .gzip => "application/gzip".toList
  | .unknown _ => "application/octet-stream".toList

/-- Modelled from the spec: `DataFormat::format()`, the extension string of
a declared format, substituted into the TileJSON URL template. -/
def DataFormat.format : DataFormat → Str
  | .png => "png".toList
  | .jpg => "jpg".toList
  | .webp => "webp".toList
  | .pbf => "pbf".toList
  | .json => "json".toList
  | .gzip => "gzip".toList
  | .unknown e => e

/-- Modelled from the spec: the `serde` serialization of a `DataFormat`
value (the `"format"` field of the TileJSON document): its extension
string. -/
def dataFormatJSON (f : DataFormat) : JSONValue := .str f.format

/-- Modelled from the spec: the gzip `compress(bytes) -> bytes` collaborator
(`utils.rs` `encode`).  Only its application matters to the properties
proved here; it is embedded as prepending the two gzip magic bytes. -/
def encode (data : Bytes) : Bytes := 0x1f :: 0x8b :: data

/-- Modelled from the spec: the blank-placeholder-image collaborator
(`utils.rs` `get_blank_image`).  `service.rs` calls it with no argument, so
it is a single fixed byte constant; the PNG signature stands in for its
content. -/
def get_blank_image : Bytes := [0x89, 0x50, 0x4e, 0x47, 0x0d, 0x0a, 0x1a, 0x0a]

mutual

/-- Modelled from the spec: `serde_json::to_vec`, the serialization of a
grid payload to bytes before compression.  A simple tagged byte encoding
stands in for the exact JSON text. -/
def serde_to_vec : JSONValue → Bytes
  | .null => [0x6e]
  | .bool b => [0x62, cond b 1 0]
  | .num n => [0x64, n.natAbs]
  | .str s => 0x73 :: s.map Char.toNat
  | .arr xs => 0x5b :: serdeArr xs
  | .obj fs => 0x7b :: serdeObj fs

/-- Serialization of a JSON array's elements (helper of `serde_to_vec`). -/
def serdeArr : List JSONValue → Bytes
  | [] => [0x5d]
  | x :: xs => serde_to_vec x ++ serdeArr xs

/-- Serialization of a JSON object's fields (helper of `serde_to_vec`). -/
def serdeObj : List (Str × JSONValue) → Bytes
  | [] => [0x7d]
  | (k, v) :: fs => k.map Char.toNat ++ serde_to_vec v ++ serdeObj fs

end

/-! ## Tileset catalog entries (`tiles.rs` `TileMeta`, modelled) -/

/-- Modelled from the spec: `tiles.rs` `TileMeta`, one catalog entry per
discovered container, with exactly the fields `service.rs` reads.  The
descriptive metadata fields are carried as the JSON values they contribute
to the TileJSON document.  `tileLookup` embeds
`get_tile_data(&connection_pool.get().unwrap(), z, x, y)` and `gridLookup`
embeds `get_grid_data(&connection_pool.get().unwrap(), grid_format, z, x,
y)`: a `Result::Err` (storage miss) is `none`. -/
structure TileMeta : Type where
  name : JSONValue
  version : JSONValue
  tilejson : JSONValue
  scheme : JSONValue
  id : JSONValue
  tile_format : DataFormat
  grid_format : Option DataFormat
  bounds : JSONValue
  center : JSONValue
  minzoom : JSONValue
  maxzoom : JSONValue
  description : JSONValue
  attribution : JSONValue
  layer_type : JSONValue
  legend : JSONValue
  template : JSONValue
  json : Option (List (Str × JSONValue))
  tileLookup : Nat → Nat → Nat → Option Bytes
  gridLookup : DataFormat → Nat → Nat → Nat → Option JSONValue

/-- The registry snapshot `HashMap<String, TileMeta>` embedded as an
association list from tileset identifier to entry. -/
abbrev Catalog : Type := List (Str × TileMeta)

/-! ## HTTP responses -/

/-- Response bodies: raw bytes, fixed text, or a structured JSON document
(serialization of documents to the wire is the out-of-scope boundary). -/
inductive HttpBody : Type where
  | bytes (data : Bytes) : HttpBody
  | text (s : Str) : HttpBody
  | json (v : JSONValue) : HttpBody

/-- A `hyper` response: status code, accumulated headers (in the order the
builder received them) and body. -/
structure HttpResponse : Type where
  status : Nat
  headers : List (Str × Str)
  body : HttpBody

/-- The `CONTENT_TYPE` header name. -/
def CONTENT_TYPE : Str := "content-type".toList

/-- The `CONTENT_ENCODING` header name. -/
def CONTENT_ENCODING : Str := "content-encoding".toList

/-- `not_found()`: 404 with fixed body `Not Found` and no headers. -/
def not_found : HttpResponse :=
  { status := 404, headers := [], body := .text "Not Found".toList }

/-- `no_content()`: 204 with the empty body `b""` and no headers. -/
def no_content : HttpResponse :=
  { status := 204, headers := [], body := .text "".toList }

/-- `forbidden()`: 403 with fixed body `Forbidden` and no headers. -/
def forbidden : HttpResponse :=
  { status := 403, headers := [], body := .text "Forbidden".toList }

/-- `bad_request(msg)`: 400 with the given message body and no headers. -/
def bad_request (msg : Str) : HttpResponse :=
  { status := 400, headers := [], body := .text msg }

/-- Modelled from the spec: `tile_map()`, the preview page (status 200,
templated HTML body from bundled assets, no extra headers). -/
def tile_map : HttpResponse :=
  { status := 200, headers := [], body := .text "previewpage".toList }

/-! ## Tile/grid branch of `get_service` (lines 124-183) -/

/-- The tile-route branch of `get_service` (`Some` arm of the regex match).
Follows the source order: catalog lookup (`.unwrap()`: `none` on a missing
id), `parse::<u32>()` bounds on the captured digits, the XYZ→TMS flip, then
dispatch on the requested extension.  `none` models a panicked request. -/
def handleTile (tilesets : Catalog) (headers : List (Str × Str))
    (tile_path : Str) (z x y : Nat) (data_format : Str) : Option HttpResponse :=
  match List.lookup tile_path tilesets with
  | none => none
  | some tile_meta =>
    if z < U32LIM ∧ x < U32LIM ∧ y < U32LIM then
      match tmsFlip z y with
      | none => none
      | some ytms =>
        if data_format == "json".toList then
          match tile_meta.grid_format with
          | some grid_format =>
            match tile_meta.gridLookup grid_format z x ytms with
            | some data =>
              some { status := 200
                     headers := headers ++
                       [(CONTENT_TYPE, DataFormat.json.content_type),
                        (CONTENT_ENCODING, "gzip".toList)]
                     body := .bytes (encode (serde_to_vec data)) }
            | none => some no_content
          | none => some not_found
        else if data_format == "pbf".toList then
          match tile_meta.tileLookup z x ytms with
          | some data =>
            some { status := 200
                   headers := headers ++
                     [(CONTENT_TYPE, DataFormat.pbf.content_type),
                      (CONTENT_ENCODING, "gzip".toList)]
                   body := .bytes data }
          | none => some no_content
        else
          let data := match tile_meta.tileLookup z x ytms with
            | some data => data
            | none => get_blank_image
          some { status := 200
                 headers := headers ++
                   [(CONTENT_TYPE, (DataFormat.new data_format).content_type)]
                 body := .bytes data }
    else none

/-! ## TileJSON detail assembly (lines 244-285) -/

/-- The tile URL template
`format!("{}/{}/tiles/{{z}}/{{x}}/{{y}}.{}{}", base_url, tile_name,
tile_meta.tile_format.format(), query_string)`. -/
def tileURLTemplate (base_url tile_name fmt qs : Str) : Str :=
  base_url ++ "/".toList ++ tile_name ++ "/tiles/{z}/{x}/{y}.".toList ++ fmt ++ qs

/-- The grid URL template
`format!("{}/{}/tiles/{{z}}/{{x}}/{{y}}.json{}", base_url, tile_name,
query_string)`. -/
def gridURLTemplate (base_url tile_name qs : Str) : Str :=
  base_url ++ "/".toList ++ tile_name ++ "/tiles/{z}/{x}/{y}.json".toList ++ qs

/-- The preview URL `format!("{}/{}/{}", base_url, tile_name, "map")`. -/
def mapURL (base_url tile_name : Str) : Str :=
  base_url ++ "/".toList ++ tile_name ++ "/map".toList

/-- The `json!` literal of lines 244-274: the computed TileJSON fields in
source order. -/
def computedDetailFields (tile_meta : TileMeta) (base_url tile_name qs : Str) :
    List (Str × JSONValue) :=
  [ ("name".toList, tile_meta.name),
    ("version".toList, tile_meta.version),
    ("tiles".toList,
      .arr [.str (tileURLTemplate base_url tile_name tile_meta.tile_format.format qs)]),
    ("tilejson".toList, tile_meta.tilejson),
    ("scheme".toList, tile_meta.scheme),
    ("id".toList, tile_meta.id),
    ("format".toList, dataFormatJSON tile_meta.tile_format),
    ("grids".toList,
      match tile_meta.grid_format with
      | some _ => .arr [.str (gridURLTemplate base_url tile_name qs)]
      | none => .null),
    ("bounds".toList, tile_meta.bounds),
    ("center".toList, tile_meta.center),
    ("minzoom".toList, tile_meta.minzoom),
    ("maxzoom".toList, tile_meta.maxzoom),
    ("description".toList, tile_meta.description),
    ("attribution".toList, tile_meta.attribution),
    ("type".toList, tile_meta.layer_type),
    ("legend".toList, tile_meta.legend),
    ("template".toList, tile_meta.template) ]

/-- Lines 275-285: merge the entry's free-form extra metadata object into
the computed document field-by-field (`tile_meta_json[k] = v`), then, unless
previews are disabled, set the `map` field. -/
def assembleDetail (tile_meta : TileMeta) (base_url tile_name qs : Str)
    (disable_preview : Bool) : List (Str × JSONValue) :=
  let doc := computedDetailFields tile_meta base_url tile_name qs
  let doc := match tile_meta.json with
    | some extra => extra.foldl (fun d kv => setField d kv.1 kv.2) doc
    | none => doc
  if disable_preview then doc
  else setField doc "map".toList (.str (mapURL base_url tile_name))

/-! ## Services branch of `get_service` (lines 185-292) -/

/-- Rust `str::trim_matches(c)`: drop the character from both ends. -/
def trimChar (c : Char) (s : Str) : Str :=
  ((s.dropWhile (fun a => a == c)).reverse.dropWhile (fun a => a == c)).reverse

/-- Rust `str::split(c)`: split on a separator character; always yields at
least one (possibly empty) segment. -/
def splitOnChar (c : Char) : Str → List Str
  | [] => [[]]
  | a :: rest =>
    if a == c then [] :: splitOnChar c rest
    else
      match splitOnChar c rest with
      | [] => [a :: []]
      | s :: segs => (a :: s) :: segs

/-- Rust `[&str]::join("/")`. -/
def joinSlash (xs : List Str) : Str := List.intercalate ('/' :: []) xs

/-- The `None` arm of the regex match: tileset listing, tileset detail,
preview page, and the final `Not Found` fallthrough. -/
def handleServices (tilesets : Catalog) (headers : List (Str × Str))
    (path : Str) (base_url : Str) (query : Option Str)
    (disable_preview : Bool) : Option HttpResponse :=
  if strStartsWith path "/services".toList then
    let segments := splitOnChar '/' (trimChar '/' path)
    if segments.length = 1 then
      some { status := 200
             headers := headers ++ [(CONTENT_TYPE, "application/json".toList)]
             body := .json (.arr (tilesets.map fun p =>
               .obj [("format".toList, dataFormatJSON p.2.tile_format),
                     ("url".toList, .str (base_url ++ "/".toList ++ p.1))])) }
    else
      let tile_name := joinSlash (segments.drop 1)
      match List.lookup tile_name tilesets with
      | some tile_meta =>
        let qs := match query with
          | some q => '?' :: q
          | none => []
        some { status := 200
               headers := headers ++ [(CONTENT_TYPE, "application/json".toList)]
               body := .json (.obj
                 (assembleDetail tile_meta base_url tile_name qs disable_preview)) }
      | none =>
        if segments.getLast? = some "map".toList then
          let inner_name := joinSlash ((segments.drop 1).dropLast)
          match List.lookup inner_name tilesets with
          | some _ => if disable_preview then some not_found else some tile_map
          | none =>
            some (bad_request ("Tileset does not exist: ".toList ++ inner_name))
        else
          some (bad_request ("Tileset does not exist: ".toList ++ tile_name))
  else
    some not_found

/-! ## Top-level `get_service` -/

/-- The outcome of matching `TILE_URL_RE` against the request path: a tile
request with its captured components, or no match (carrying the path, after
the `/api/tileserver/` prefix replacement, for the services branch). -/
inductive RouteMatch : Type where
  | tile (tile_path : Str) (z x y : Nat) (ext : Str) : RouteMatch
  | other (path : Str) : RouteMatch

/-- `get_service` from `service.rs`: host access control first (rejection
answers `forbidden` and evaluates nothing else), then the base URL from the
raw declared host, the scheme (defaulting to `https`) and the subdomain
suffix, then dispatch on the route match. -/
def get_service (host : Option Str) (allowed_hosts : List Str)
    (headers : List (Str × Str)) (disable_preview : Bool)
    (tilesets : Catalog) (subdomain : Str) (scheme : Option Str)
    (route : RouteMatch) (query : Option Str) : Option HttpResponse :=
  if is_host_valid host allowed_hosts then
    match host with
    | none => none
    | some h =>
      let scheme_str := match scheme with
        | some s => s ++ "://".toList
        | none => "https://".toList
      let base_url := scheme_str ++ h ++ subdomain ++ "/services".toList
      match route with
      | .tile tile_path z x y ext => handleTile tilesets headers tile_path z x y ext
      | .other path => handleServices tilesets headers path base_url query disable_preview
  else
    some forbidden

/-! ## Concrete catalog entries used by witnesses and counterexamples -/

/-- A minimal concrete catalog entry: raster format, no grid, storage
always misses, no extra metadata. -/
def baseMeta : TileMeta :=
  { name := .null, version := .null, tilejson := .null, scheme := .null,
    id := .null, tile_format := .png, grid_format := none, bounds := .null,
    center := .null, minzoom := .null, maxzoom := .null, description := .null,
    attribution := .null, layer_type := .null, legend := .null,
    template := .null, json := none,
    tileLookup := fun _ _ _ => none, gridLookup := fun _ _ _ _ => none }

/-- A concrete entry whose tile storage always hits. -/
def metaTileHit : TileMeta :=
  { baseMeta with tileLookup := fun _ _ _ => some [1, 2, 3] }

/-- A concrete entry with a grid format whose grid storage always misses. -/
def metaGridMiss : TileMeta :=
  { baseMeta with grid_format := some .json }

/-- A concrete entry with a grid format whose grid storage always hits. -/
def metaGridHit : TileMeta :=
  { baseMeta with
    grid_format := some DataFormat.json
    gridLookup := fun _ _ _ _ => some (.str "grid".toList) }

/-- A concrete entry whose extra metadata object carries a `map` field. -/
def metaExtraMap : TileMeta :=
  { baseMeta with json := some [("map".toList, JSONValue.str "x".toList)] }

/-- A concrete entry whose extra metadata object carries a `tiles` field. -/
def metaExtraTiles : TileMeta :=
  { baseMeta with json := some [("tiles".toList, JSONValue.null)] }

/-! ## Helper lemmas -/

/-- The coordinate bounds enforced by `parse::<u32>()` follow from the
tighter bounds `z < 32` and `y < 2^z`. -/
theorem coordBounds {z x y : Nat} (hz : z < 32) (hx : x < U32LIM)
    (hy : y < 2 ^ z) : z < U32LIM ∧ x < U32LIM ∧ y < U32LIM := by
  refine ⟨lt_of_lt_of_le hz (by norm_num [U32LIM]), hx, ?_⟩
  have h1 : 2 ^ z ≤ 2 ^ 31 := Nat.pow_le_pow_right (by norm_num) (by omega)
  have h2 : y < 2 ^ 31 := lt_of_lt_of_le hy h1
  exact lt_of_lt_of_le h2 (by norm_num [U32LIM])

/-- In the in-range case the flip computes the TMS row. -/
theorem tmsFlip_eq {z y : Nat} (hz : z < 32) (hy : y < 2 ^ z) :
    tmsFlip z y = some (2 ^ z - 1 - y) := by
  have h1 : 0 < 2 ^ z := pow_pos (by norm_num) z
  unfold tmsFlip
  rw [if_pos hz, if_pos (by omega)]

/-- Setting a field then reading it back yields the new value. -/
theorem lookupField_setField_self (d : List (Str × JSONValue)) (k : Str)
    (v : JSONValue) : lookupField (setField d k v) k = some v := by
  induction d with
  | nil => simp [setField, lookupField]
  | cons kv rest ih =>
    obtain ⟨k0, v0⟩ := kv
    cases h : (k0 == k) with
    | true => simp [setField, lookupField, h]
    | false => simp [setField, lookupField, h, ih]

/-- Setting one field leaves the lookup of a different key unchanged. -/
theorem lookupField_setField_ne (d : List (Str × JSONValue)) {k0 : Str}
    (v : JSONValue) {k : Str} (h : k0 ≠ k) :
    lookupField (setField d k0 v) k = lookupField d k := by
  induction d with
  | nil =>
    simp [setField, lookupField, beq_eq_false_iff_ne.mpr h]
  | cons kv rest ih =>
    obtain ⟨k1, v1⟩ := kv
    cases h1 : (k1 == k0) with
    | true =>
      have hk1 : k1 ≠ k := by rw [eq_of_beq h1]; exact h
      simp [setField, lookupField, h1, beq_eq_false_iff_ne.mpr hk1]
    | false =>
      cases h2 : (k1 == k) with
      | true => simp [setField, lookupField, h1, h2]
      | false => simp [setField, lookupField, h1, h2, ih]

/-- Folding the extra-metadata merge over bindings that never mention `k`
leaves the lookup of `k` unchanged. -/
theorem lookupField_fold_not_mem (extra : List (Str × JSONValue)) (k : Str) :
    ∀ d, k ∉ extra.map Prod.fst →
      lookupField (extra.foldl (fun d kv => setField d kv.1 kv.2) d) k =
        lookupField d k := by
  induction extra with
  | nil => intro d _; rfl
  | cons kv rest ih =>
    intro d h
    simp only [List.map_cons, List.mem_cons, not_or] at h
    simp only [List.foldl_cons]
    rw [ih (setField d kv.1 kv.2) h.2,
      lookupField_setField_ne d kv.2 (fun hEq => h.1 hEq.symm)]

/-- Folding the extra-metadata merge over bindings with pairwise distinct
keys installs each binding's value. -/
theorem lookupField_fold_mem (extra : List (Str × JSONValue)) (k : Str)
    (v : JSONValue) :
    ∀ d, (extra.map Prod.fst).Nodup → (k, v) ∈ extra →
      lookupField (extra.foldl (fun d kv => setField d kv.1 kv.2) d) k =
        some v := by
  induction extra with
  | nil => intro d _ hmem; cases hmem
  | cons kv rest ih =>
    intro d hnd hmem
    simp only [List.foldl_cons]
    simp only [List.map_cons, List.nodup_cons] at hnd
    rcases List.mem_cons.mp hmem with hEq | hMem
    · obtain ⟨k0, v0⟩ := kv
      injection hEq with hk hv
      subst hk
      subst hv
      rw [lookupField_fold_not_mem rest k (setField d k v) hnd.1,
        lookupField_setField_self]
    · exact ih (setField d kv.1 kv.2) hnd.2 hMem

/-- A contiguous sublist is still one after extending the list on the
left. -/
theorem sublistSeg_append_right {l L : Str} (h : l <:+: L) (x : Str) :
    l <:+: x ++ L := by
  obtain ⟨s, t, hst⟩ := h
  exact ⟨x ++ s, t, by rw [← hst]; simp [List.append_assoc]⟩

/-- A contiguous sublist is still one after extending the list on the
right. -/
theorem sublistSeg_append_left {l L : Str} (h : l <:+: L) (x : Str) :
    l <:+: L ++ x := by
  obtain ⟨s, t, hst⟩ := h
  exact ⟨s, t ++ x, by rw [← hst]; simp [List.append_assoc]⟩

/-- A list is a contiguous sublist of itself followed by anything. -/
theorem sublistSeg_self_append (l y : Str) : l <:+: l ++ y :=
  ⟨[], y, by simp⟩

/-! ## Claim theorems -/

/-- C1, counterexample: the claim says the host `b.com` is rejected against
the leading-dot rule `.b.com`, but `is_host_valid` strips the dot before the
suffix test and accepts it. -/
theorem c1_counterexample :
    is_host_valid (some "b.com".toList) [".b.com".toList] = true := by decide

/-- C1 (amended): against the singleton allow-list `[.D]` the host predicate
accepts a request host exactly when the port-stripped host ends with the
suffix `D` **with the dot stripped** — so `a.b.com` is accepted against
`.b.com`, but so are `b.com` itself and any host ending in `b.com` such as
`ab.com`; matching is case-sensitive with no other globbing. -/
theorem c1_dot_rule_amended (h D : Str) :
    is_host_valid (some h) [('.' :: D)] = strEndsWith (stripPort h) D := by
  unfold is_host_valid hostMatches
  simp only [List.any_cons, List.any_nil, Bool.or_false]
  have h1 : (('.' :: D : Str) == ('*' :: [])) = false := by
    apply beq_eq_false_iff_ne.mpr
    intro hEq
    injection hEq with hc _
    exact absurd hc (by decide)
  have h2 : strStartsWith ('.' :: D) ('.' :: []) = true :=
    decide_eq_true ⟨D, rfl⟩
  rw [h1, h2]
  simp only [Bool.false_or, Bool.true_and, List.drop_succ_cons, List.drop_zero]
  cases hbe : (('.' :: D : Str) == stripPort h) with
  | false => simp
  | true =>
    have hEq := eq_of_beq hbe
    rw [← hEq]
    have h3 : strEndsWith ('.' :: D) D = true :=
      decide_eq_true ⟨('.' :: []), rfl⟩
    rw [h3]
    simp

/-- C2: the tile-route branch resolves an unknown tileset id with
`tilesets.get(tile_path).unwrap()`, which panics (embedded as `none`): no
miss outcome and no response at all is produced, contradicting the spec's
"storage-layer miss … never an error status and never a crash". -/
theorem c2_unknown_tileset_panics :
    List.lookup "missing".toList [("present".toList, metaTileHit)] = none ∧
    handleTile [("present".toList, metaTileHit)] []
      "missing".toList 0 0 0 "png".toList = none ∧
    handleTile [("present".toList, metaTileHit)] []
      "missing".toList 0 0 0 "json".toList = none :=
  ⟨rfl, rfl, rfl⟩

/-- C4, counterexample: at zoom `z = 32` and row `y = 0` (which satisfies
`0 ≤ y < 2^z`) the shift `1u32 << z` overflows, so the request panics and no
storage row is queried at all — even though the entry's storage would answer
any query. -/
theorem c4_counterexample :
    (0 : Nat) < 2 ^ (32 : Nat) ∧
    tmsFlip 32 0 = none ∧
    handleTile [("a".toList, metaTileHit)] [] "a".toList 32 0 0
      "pbf".toList = none :=
  ⟨by norm_num, rfl, rfl⟩

/-- C4 (amended): for every zoom `z < 32` and XYZ row `y < 2^z`, the flip
computes the TMS row `2^z - 1 - y`, it is an involution on that range, and
the tile handler queries storage exactly at that singly-flipped row. -/
theorem c4_flip_amended (z y : Nat) (hz : z < 32) (hy : y < 2 ^ z) :
    tmsFlip z y = some (2 ^ z - 1 - y) ∧
    tmsFlip z (2 ^ z - 1 - y) = some y ∧
    (∀ (tilesets : Catalog) (headers : List (Str × Str)) (tile_path : Str)
        (x : Nat) (meta : TileMeta) (data : Bytes),
      List.lookup tile_path tilesets = some meta → x < U32LIM →
      meta.tileLookup z x (2 ^ z - 1 - y) = some data →
      handleTile tilesets headers tile_path z x y "pbf".toList =
        some { status := 200
               headers := headers ++
                 [(CONTENT_TYPE, DataFormat.pbf.content_type),
                  (CONTENT_ENCODING, "gzip".toList)]
               body := .bytes data }) := by
  have h1 : 0 < 2 ^ z := pow_pos (by norm_num) z
  refine ⟨tmsFlip_eq hz hy, ?_, ?_⟩
  · rw [tmsFlip_eq hz (by omega)]
    congr 1
    omega
  · intro tilesets headers tile_path x meta data hmeta hx hhit
    have hb := coordBounds hz hx hy
    simp [handleTile, hmeta, hb, tmsFlip_eq hz hy, hhit]

/-- C9: a missing host header, or a declared host matching no allow-list
rule, answers the fixed `forbidden` response (status 403, body `Forbidden`)
for **every** catalog, route match, scheme, query and configuration — so no
routing and no registry lookup influences the outcome. -/
theorem c9_forbidden (host : Option Str) (allowed_hosts : List Str)
    (headers : List (Str × Str)) (disable_preview : Bool) (tilesets : Catalog)
    (subdomain : Str) (scheme : Option Str) (route : RouteMatch)
    (query : Option Str)
    (hrej : is_host_valid host allowed_hosts = false) :
    get_service host allowed_hosts headers disable_preview tilesets subdomain
        scheme route query = some forbidden ∧
    forbidden.status = 403 ∧
    forbidden.body = .text "Forbidden".toList ∧
    forbidden.headers = [] := by
  refine ⟨?_, rfl, rfl, rfl⟩
  unfold get_service
  rw [hrej]
  rfl

/-- C9, witness at a concrete rejected request (absent host header). -/
theorem c9_forbidden_witness :
    get_service none ["*".toList] [] false [("a".toList, baseMeta)] []
        none (.other "/services".toList) none = some forbidden ∧
    forbidden.status = 403 :=
  have h := c9_forbidden none ["*".toList] [] false [("a".toList, baseMeta)]
    [] none (.other "/services".toList) none rfl
  ⟨h.1, h.2.1⟩

/-- C10: the row conversion `(1 << z) - 1 - y` on `u32` is total exactly
under `z < 32` and `y < 2^z`; for `z ≥ 32` the shift overflows and for
`y ≥ 2^z` the unsigned subtraction overflows, and in either case the matched
tile request panics instead of producing a miss or error response. -/
theorem c10_flip_overflow (z y : Nat) :
    (z < 32 → y < 2 ^ z → tmsFlip z y = some (2 ^ z - 1 - y)) ∧
    (32 ≤ z → tmsFlip z y = none) ∧
    (z < 32 → 2 ^ z ≤ y → tmsFlip z y = none) ∧
    (∀ (tilesets : Catalog) (headers : List (Str × Str)) (tile_path : Str)
        (x : Nat) (fmt : Str) (meta : TileMeta),
      List.lookup tile_path tilesets = some meta →
      x < U32LIM → y < U32LIM →
      (32 ≤ z → handleTile tilesets headers tile_path z x y fmt = none) ∧
      (z < 32 → 2 ^ z ≤ y →
        handleTile tilesets headers tile_path z x y fmt = none)) := by
  have hshift : 32 ≤ z → tmsFlip z y = none := by
    intro hz
    unfold tmsFlip
    rw [if_neg (by omega)]
  have hsub : z < 32 → 2 ^ z ≤ y → tmsFlip z y = none := by
    intro hz hy
    have h1 : 0 < 2 ^ z := pow_pos (by norm_num) z
    unfold tmsFlip
    rw [if_pos hz, if_neg (by omega)]
  refine ⟨fun hz hy => tmsFlip_eq hz hy, hshift, hsub, ?_⟩
  intro tilesets headers tile_path x fmt meta hmeta hx hy
  constructor
  · intro hz
    by_cases hzl : z < U32LIM
    · simp [handleTile, hmeta, hx, hy, hzl, hshift hz]
    · simp [handleTile, hmeta, hzl]
  · intro hz hyo
    have hzl : z < U32LIM := lt_of_lt_of_le hz (by norm_num [U32LIM])
    simp [handleTile, hmeta, hx, hy, hzl, hsub hz hyo]

/-- C10, witness: the flip at in-range, shift-overflow and
subtraction-overflow inputs, and a panicking handler run for each overflow
kind. -/
theorem c10_flip_overflow_witness :
    tmsFlip 3 2 = some 5 ∧
    tmsFlip 33 1 = none ∧
    tmsFlip 3 9 = none ∧
    handleTile [("a".toList, baseMeta)] [] "a".toList 33 0 1
      "png".toList = none ∧
    handleTile [("a".toList, baseMeta)] [] "a".toList 3 0 9
      "png".toList = none := by
  refine ⟨?_, ?_, ?_, ?_, ?_⟩
  · exact (c10_flip_overflow 3 2).1 (by norm_num) (by norm_num)
  · exact (c10_flip_overflow 33 1).2.1 (by norm_num)
  · exact (c10_flip_overflow 3 9).2.2.1 (by norm_num) (by norm_num)
  · exact (((c10_flip_overflow 33 1).2.2.2 [("a".toList, baseMeta)] []
      "a".toList 0 "png".toList baseMeta rfl (by norm_num [U32LIM])
      (by norm_num [U32LIM])).1 (by norm_num))
  · exact (((c10_flip_overflow 3 9).2.2.2 [("a".toList, baseMeta)] []
      "a".toList 0 "png".toList baseMeta rfl (by norm_num [U32LIM])
      (by norm_num [U32LIM])).2 (by norm_num) (by norm_num))

/-- C4 (amended), witness at `z = 2`, `y = 1` with a storage hit. -/
theorem c4_flip_amended_witness :
    tmsFlip 2 1 = some 2 ∧
    tmsFlip 2 2 = some 1 ∧
    handleTile [("a".toList, metaTileHit)] [] "a".toList 2 0 1 "pbf".toList =
      some { status := 200
             headers := [(CONTENT_TYPE, DataFormat.pbf.content_type),
                         (CONTENT_ENCODING, "gzip".toList)]
             body := .bytes [1, 2, 3] } := by
  have h := c4_flip_amended 2 1 (by norm_num) (by norm_num)
  refine ⟨h.1, h.2.1, ?_⟩
  exact h.2.2 [("a".toList, metaTileHit)] [] "a".toList 0 metaTileHit
    [1, 2, 3] rfl (by norm_num [U32LIM]) rfl

/-- C3: a tile request whose extension is neither `json` nor `pbf` and whose
(valid) coordinate misses in storage answers status 200 with a body
byte-identical to the blank placeholder image. -/
theorem c3_raster_miss_blank (tilesets : Catalog)
    (headers : List (Str × Str)) (tile_path : Str) (z x y : Nat) (fmt : Str)
    (meta : TileMeta)
    (hmeta : List.lookup tile_path tilesets = some meta)
    (hz : z < 32) (hx : x < U32LIM) (hy : y < 2 ^ z)
    (hfj : fmt ≠ "json".toList) (hfp : fmt ≠ "pbf".toList)
    (hmiss : meta.tileLookup z x (2 ^ z - 1 - y) = none) :
    handleTile tilesets headers tile_path z x y fmt =
      some { status := 200
             headers := headers ++
               [(CONTENT_TYPE, (DataFormat.new fmt).content_type)]
             body := .bytes get_blank_image } := by
  have hb := coordBounds hz hx hy
  have hfj' : fmt ≠ ['j', 's', 'o', 'n'] := by simpa using hfj
  have hfp' : fmt ≠ ['p', 'b', 'f'] := by simpa using hfp
  simp [handleTile, hmeta, hb, tmsFlip_eq hz hy, hfj', hfp', hmiss]

/-- C3, witness: a concrete `png` request at a coordinate absent from
storage. -/
theorem c3_raster_miss_blank_witness :
    handleTile [("a".toList, baseMeta)] [] "a".toList 1 0 0 "png".toList =
      some { status := 200
             headers := [(CONTENT_TYPE, DataFormat.png.content_type)]
             body := .bytes get_blank_image } := by
  have h := c3_raster_miss_blank [("a".toList, baseMeta)] [] "a".toList
    1 0 0 "png".toList baseMeta rfl (by norm_num) (by norm_num [U32LIM])
    (by norm_num) (by decide) (by decide) rfl
  exact h

/-- C5: for a `.json` grid tile request at a valid coordinate — no declared
grid format answers 404 not-found; a declared grid format with a storage
miss answers 204 with an empty body; a hit answers the serialized,
gzip-compressed grid payload. -/
theorem c5_grid_policy (tilesets : Catalog) (headers : List (Str × Str))
    (tile_path : Str) (z x y : Nat) (meta : TileMeta)
    (hmeta : List.lookup tile_path tilesets = some meta)
    (hz : z < 32) (hx : x < U32LIM) (hy : y < 2 ^ z) :
    (meta.grid_format = none →
      handleTile tilesets headers tile_path z x y "json".toList =
        some not_found ∧
      not_found.status = 404) ∧
    (∀ gf, meta.grid_format = some gf →
      meta.gridLookup gf z x (2 ^ z - 1 - y) = none →
      handleTile tilesets headers tile_path z x y "json".toList =
        some no_content ∧
      no_content.status = 204 ∧ no_content.body = .text []) ∧
    (∀ gf g, meta.grid_format = some gf →
      meta.gridLookup gf z x (2 ^ z - 1 - y) = some g →
      handleTile tilesets headers tile_path z x y "json".toList =
        some { status := 200
               headers := headers ++
                 [(CONTENT_TYPE, DataFormat.json.content_type),
                  (CONTENT_ENCODING, "gzip".toList)]
               body := .bytes (encode (serde_to_vec g)) }) := by
  have hb := coordBounds hz hx hy
  have hflip := tmsFlip_eq hz hy
  refine ⟨?_, ?_, ?_⟩
  · intro hgf
    exact ⟨by simp [handleTile, hmeta, hb, hflip, hgf], rfl⟩
  · intro gf hgf hmiss
    exact ⟨by simp [handleTile, hmeta, hb, hflip, hgf, hmiss], rfl, rfl⟩
  · intro gf g hgf hhit
    simp [handleTile, hmeta, hb, hflip, hgf, hhit]

/-- C5, witness: concrete `.json` requests against an entry without a grid
format, an entry whose grid misses, and an entry whose grid hits. -/
theorem c5_grid_policy_witness :
    handleTile [("a".toList, baseMeta)] [] "a".toList 1 0 0 "json".toList =
      some not_found ∧
    handleTile [("a".toList, metaGridMiss)] [] "a".toList 1 0 0
      "json".toList = some no_content ∧
    handleTile [("a".toList, metaGridHit)] [] "a".toList 1 0 0
      "json".toList =
      some { status := 200
             headers := [(CONTENT_TYPE, DataFormat.json.content_type),
                         (CONTENT_ENCODING, "gzip".toList)]
             body := .bytes (encode (serde_to_vec (.str "grid".toList))) } := by
  refine ⟨?_, ?_, ?_⟩
  · exact ((c5_grid_policy [("a".toList, baseMeta)] [] "a".toList 1 0 0
      baseMeta rfl (by norm_num) (by norm_num [U32LIM]) (by norm_num)).1
      rfl).1
  · exact ((c5_grid_policy [("a".toList, metaGridMiss)] [] "a".toList 1 0 0
      metaGridMiss rfl (by norm_num) (by norm_num [U32LIM])
      (by norm_num)).2.1 DataFormat.json rfl rfl).1
  · exact (c5_grid_policy [("a".toList, metaGridHit)] [] "a".toList 1 0 0
      metaGridHit rfl (by norm_num) (by norm_num [U32LIM])
      (by norm_num)).2.2 DataFormat.json (.str "grid".toList) rfl rfl

/-- C6, counterexample: with a configured extra header, a `.json` grid miss
answers the bare `no_content()` response, which carries no headers at all —
the configured header is not attached to this miss outcome. -/
theorem c6_counterexample :
    handleTile [("a".toList, metaGridMiss)]
      [("x-custom".toList, "1".toList)] "a".toList 0 0 0 "json".toList =
      some no_content ∧
    no_content.headers = [] :=
  ⟨rfl, rfl⟩

/-- C6 (amended): every configured extra header is attached to the responses
built through the tile branch's builder (storage hits and the raster-miss
blank-image response) and to detail and listing responses; it is **not**
attached to the `no_content()` 204 and `not_found()` 404 miss outcomes of
the `json`/`pbf` policies, which are built without the configured
headers. -/
theorem c6_headers_amended (tilesets : Catalog) (headers : List (Str × Str))
    (tile_path : Str) (z x y : Nat) (meta : TileMeta) (kv : Str × Str)
    (hmeta : List.lookup tile_path tilesets = some meta)
    (hz : z < 32) (hx : x < U32LIM) (hy : y < 2 ^ z)
    (hkv : kv ∈ headers) :
    (∀ fmt, fmt ≠ "json".toList → fmt ≠ "pbf".toList →
      meta.tileLookup z x (2 ^ z - 1 - y) = none →
      ∃ r, handleTile tilesets headers tile_path z x y fmt = some r ∧
        kv ∈ r.headers) ∧
    (∀ d, meta.tileLookup z x (2 ^ z - 1 - y) = some d →
      ∃ r, handleTile tilesets headers tile_path z x y "pbf".toList =
        some r ∧ kv ∈ r.headers) ∧
    (meta.tileLookup z x (2 ^ z - 1 - y) = none →
      handleTile tilesets headers tile_path z x y "pbf".toList =
        some no_content ∧ no_content.headers = []) ∧
    (meta.grid_format = none →
      handleTile tilesets headers tile_path z x y "json".toList =
        some not_found ∧ not_found.headers = []) ∧
    (∀ path base_url query dp,
      strStartsWith path "/services".toList = true →
      (splitOnChar '/' (trimChar '/' path)).length ≠ 1 →
      List.lookup (joinSlash ((splitOnChar '/' (trimChar '/' path)).drop 1))
          tilesets = some meta →
      ∃ r, handleServices tilesets headers path base_url query dp = some r ∧
        kv ∈ r.headers) ∧
    (∀ base_url query dp,
      ∃ r, handleServices tilesets headers "/services".toList base_url
        query dp = some r ∧ kv ∈ r.headers) := by
  have hb := coordBounds hz hx hy
  have hflip := tmsFlip_eq hz hy
  refine ⟨?_, ?_, ?_, ?_, ?_, ?_⟩
  · intro fmt hfj hfp hmiss
    have hfj' : fmt ≠ ['j', 's', 'o', 'n'] := by simpa using hfj
    have hfp' : fmt ≠ ['p', 'b', 'f'] := by simpa using hfp
    refine ⟨{ status := 200
              headers := headers ++
                [(CONTENT_TYPE, (DataFormat.new fmt).content_type)]
              body := .bytes get_blank_image },
      ?_, List.mem_append_left _ hkv⟩
    simp [handleTile, hmeta, hb, hflip, hfj', hfp', hmiss]
  · intro d hhit
    refine ⟨{ status := 200
              headers := headers ++
                [(CONTENT_TYPE, DataFormat.pbf.content_type),
                 (CONTENT_ENCODING, "gzip".toList)]
              body := .bytes d },
      ?_, List.mem_append_left _ hkv⟩
    simp [handleTile, hmeta, hb, hflip, hhit]
  · intro hmiss
    exact ⟨by simp [handleTile, hmeta, hb, hflip, hmiss], rfl⟩
  · intro hgf
    exact ⟨by simp [handleTile, hmeta, hb, hflip, hgf], rfl⟩
  · intro path base_url query dp hsv hlen hname
    refine ⟨{ status := 200
              headers := headers ++ [(CONTENT_TYPE, "application/json".toList)]
              body := .json (.obj (assembleDetail meta base_url
                (joinSlash ((splitOnChar '/' (trimChar '/' path)).drop 1))
                (match query with | some q => '?' :: q | none => []) dp)) },
      ?_, List.mem_append_left _ hkv⟩
    simp only [handleServices, hsv, if_true, hlen, ite_false, hname]
  · intro base_url query dp
    refine ⟨{ status := 200
              headers := headers ++ [(CONTENT_TYPE, "application/json".toList)]
              body := .json (.arr (tilesets.map fun p =>
                .obj [("format".toList, dataFormatJSON p.2.tile_format),
                      ("url".toList, .str (base_url ++ "/".toList ++ p.1))])) },
      ?_, List.mem_append_left _ hkv⟩
    rfl

/-- C6 (amended), witness: the configured header is on a raster-miss blank
response and on a listing response, and is missing from a json-miss 204. -/
theorem c6_headers_amended_witness :
    (∃ r, handleTile [("a".toList, metaGridMiss)]
        [("x-custom".toList, "1".toList)] "a".toList 1 0 0 "png".toList =
        some r ∧ ("x-custom".toList, "1".toList) ∈ r.headers) ∧
    (handleTile [("a".toList, metaGridMiss)]
        [("x-custom".toList, "1".toList)] "a".toList 1 0 0 "pbf".toList =
        some no_content ∧ no_content.headers = []) ∧
    (∃ r, handleServices [("a".toList, metaGridMiss)]
        [("x-custom".toList, "1".toList)] "/services".toList "B".toList
        none false = some r ∧ ("x-custom".toList, "1".toList) ∈ r.headers) := by
  have h := c6_headers_amended [("a".toList, metaGridMiss)]
    [("x-custom".toList, "1".toList)] "a".toList 1 0 0 metaGridMiss
    ("x-custom".toList, "1".toList) rfl (by norm_num) (by norm_num [U32LIM])
    (by norm_num) (List.mem_cons_self _ _)
  refine ⟨h.1 "png".toList (by decide) (by decide) rfl, ?_, ?_⟩
  · exact h.2.2.1 rfl
  · exact h.2.2.2.2.2 "B".toList none false

/-- In the computed detail document the `tiles` field is the singleton URL
template. -/
theorem computed_tiles_eq (meta : TileMeta) (b n q : Str) :
    lookupField (computedDetailFields meta b n q) "tiles".toList =
      some (.arr [.str (tileURLTemplate b n meta.tile_format.format q)]) :=
  rfl

/-- If the extra metadata does not bind `tiles`, the assembled detail
document keeps the computed singleton `tiles` template. -/
theorem assembleDetail_tiles (meta : TileMeta) (b n q : Str) (dp : Bool)
    (hext : ∀ extra, meta.json = some extra →
      "tiles".toList ∉ extra.map Prod.fst) :
    lookupField (assembleDetail meta b n q dp) "tiles".toList =
      some (.arr [.str (tileURLTemplate b n meta.tile_format.format q)]) := by
  have hmapne : "map".toList ≠ "tiles".toList := by decide
  simp only [assembleDetail]
  cases hjson : meta.json with
  | none =>
    cases dp with
    | true => exact computed_tiles_eq meta b n q
    | false =>
      rw [if_neg Bool.false_ne_true, lookupField_setField_ne _ _ hmapne]
      exact computed_tiles_eq meta b n q
  | some extra =>
    have hfold := lookupField_fold_not_mem extra "tiles".toList
      (computedDetailFields meta b n q) (hext extra hjson)
    cases dp with
    | true =>
      rw [if_pos rfl, hfold]
      exact computed_tiles_eq meta b n q
    | false =>
      rw [if_neg Bool.false_ne_true, lookupField_setField_ne _ _ hmapne,
        hfold]
      exact computed_tiles_eq meta b n q

/-- With previews enabled, the `map` field set after the merge always holds
the computed preview URL. -/
theorem assembleDetail_map (meta : TileMeta) (b n q : Str) :
    lookupField (assembleDetail meta b n q false) "map".toList =
      some (.str (mapURL b n)) := by
  simp only [assembleDetail]
  rw [if_neg Bool.false_ne_true, lookupField_setField_self]

/-- The placeholders and the format extension occur in the URL template. -/
theorem tileURLTemplate_placeholders (b n f q : Str) :
    "{z}".toList <:+: tileURLTemplate b n f q ∧
    "{x}".toList <:+: tileURLTemplate b n f q ∧
    "{y}".toList <:+: tileURLTemplate b n f q ∧
    f <:+: tileURLTemplate b n f q := by
  unfold tileURLTemplate
  simp only [List.append_assoc]
  have ext3 : ∀ {l : Str},
      l <:+: "/tiles/{z}/{x}/{y}.".toList ++ (f ++ q) →
      l <:+: b ++ ("/".toList ++ (n ++ ("/tiles/{z}/{x}/{y}.".toList ++ (f ++ q)))) :=
    fun h => sublistSeg_append_right (sublistSeg_append_right
      (sublistSeg_append_right h n) "/".toList) b
  refine ⟨?_, ?_, ?_, ?_⟩
  · exact ext3 (sublistSeg_append_left
      (by decide : "{z}".toList <:+: "/tiles/{z}/{x}/{y}.".toList) (f ++ q))
  · exact ext3 (sublistSeg_append_left
      (by decide : "{x}".toList <:+: "/tiles/{z}/{x}/{y}.".toList) (f ++ q))
  · exact ext3 (sublistSeg_append_left
      (by decide : "{y}".toList <:+: "/tiles/{z}/{x}/{y}.".toList) (f ++ q))
  · exact ext3 (sublistSeg_append_right (sublistSeg_self_append f q)
      "/tiles/{z}/{x}/{y}.".toList)

/-- C7, counterexample: the extra metadata binds `map`, previews are
enabled, and the assembled document maps `map` to the **computed** preview
URL, not to the extra metadata's value — the `map` field is written after
the merge. -/
theorem c7_counterexample :
    metaExtraMap.json = some [("map".toList, JSONValue.str "x".toList)] ∧
    lookupField (assembleDetail metaExtraMap "B".toList "a".toList [] false)
      "map".toList = some (.str (mapURL "B".toList "a".toList)) ∧
    JSONValue.str (mapURL "B".toList "a".toList) ≠
      JSONValue.str "x".toList := by
  refine ⟨rfl, rfl, ?_⟩
  intro hEq
  injection hEq with h1
  exact absurd h1 (by decide)

/-- C7 (amended): every key of the extra metadata object is mapped to the
extra metadata's value in the assembled detail document, overwriting any
computed field of the same name — **except** the key `map` when previews
are enabled, because the `map` field is written after the merge (when
previews are disabled, `map` from the extra metadata survives too). -/
theorem c7_extra_merge_amended (meta : TileMeta) (base_url tile_name qs : Str)
    (dp : Bool) (extra : List (Str × JSONValue)) (k : Str) (v : JSONValue)
    (hj : meta.json = some extra) (hnd : (extra.map Prod.fst).Nodup)
    (hmem : (k, v) ∈ extra) (hk : k ≠ "map".toList ∨ dp = true) :
    lookupField (assembleDetail meta base_url tile_name qs dp) k =
      some v := by
  have hfold := lookupField_fold_mem extra k v
    (computedDetailFields meta base_url tile_name qs) hnd hmem
  simp only [assembleDetail, hj]
  cases dp with
  | true => exact hfold
  | false =>
    rcases hk with hk | hk
    · rw [if_neg Bool.false_ne_true,
        lookupField_setField_ne _ _ (fun hEq => hk hEq.symm)]
      exact hfold
    · exact absurd hk (by decide)

/-- C7 (amended), witness: with previews disabled the extra metadata's
`map` binding survives the merge. -/
theorem c7_extra_merge_amended_witness :
    lookupField (assembleDetail metaExtraMap "B".toList "a".toList [] true)
      "map".toList = some (JSONValue.str "x".toList) :=
  c7_extra_merge_amended metaExtraMap "B".toList "a".toList [] true
    [("map".toList, JSONValue.str "x".toList)] "map".toList
    (JSONValue.str "x".toList) rfl (by simp) (by simp) (Or.inr rfl)

/-- C8, counterexample: an entry whose extra metadata binds `tiles`
overrides the computed singleton template — the returned detail document's
`tiles` field is `null`, not an array of one URL template. -/
theorem c8_counterexample :
    handleServices [("a".toList, metaExtraTiles)] [] "/services/a".toList
        "B".toList none false =
      some { status := 200
             headers := [(CONTENT_TYPE, "application/json".toList)]
             body := .json (.obj (assembleDetail metaExtraTiles "B".toList
               "a".toList [] false)) } ∧
    lookupField (assembleDetail metaExtraTiles "B".toList "a".toList [] false)
      "tiles".toList = some JSONValue.null :=
  ⟨rfl, rfl⟩

/-- C8 (amended): for a detail request on a known tileset id whose extra
metadata does not bind `tiles`, the returned TileJSON document's `tiles`
field is an array of exactly one URL template containing `{z}`, `{x}`,
`{y}` and the declared format extension, and unless previews are disabled
the `map` field holds `<base_url>/<id>/map`. -/
theorem c8_detail_document_amended (tilesets : Catalog)
    (headers : List (Str × Str)) (path base_url tile_name qs : Str)
    (query : Option Str) (dp : Bool) (meta : TileMeta)
    (hsv : strStartsWith path "/services".toList = true)
    (hlen : (splitOnChar '/' (trimChar '/' path)).length ≠ 1)
    (htn : tile_name = joinSlash ((splitOnChar '/' (trimChar '/' path)).drop 1))
    (hqs : qs = match query with | some q => '?' :: q | none => [])
    (hmeta : List.lookup tile_name tilesets = some meta)
    (hext : ∀ extra, meta.json = some extra →
      "tiles".toList ∉ extra.map Prod.fst) :
    handleServices tilesets headers path base_url query dp =
      some { status := 200
             headers := headers ++ [(CONTENT_TYPE, "application/json".toList)]
             body := .json (.obj
               (assembleDetail meta base_url tile_name qs dp)) } ∧
    lookupField (assembleDetail meta base_url tile_name qs dp)
        "tiles".toList =
      some (.arr [.str (tileURLTemplate base_url tile_name
        meta.tile_format.format qs)]) ∧
    "{z}".toList <:+: tileURLTemplate base_url tile_name
      meta.tile_format.format qs ∧
    "{x}".toList <:+: tileURLTemplate base_url tile_name
      meta.tile_format.format qs ∧
    "{y}".toList <:+: tileURLTemplate base_url tile_name
      meta.tile_format.format qs ∧
    meta.tile_format.format <:+: tileURLTemplate base_url tile_name
      meta.tile_format.format qs ∧
    (dp = false →
      lookupField (assembleDetail meta base_url tile_name qs dp)
          "map".toList =
        some (.str (mapURL base_url tile_name))) := by
  obtain ⟨hz, hx, hy, hf⟩ := tileURLTemplate_placeholders base_url tile_name
    meta.tile_format.format qs
  subst htn
  subst hqs
  refine ⟨?_, assembleDetail_tiles meta base_url _ _ dp hext, hz, hx, hy, hf,
    ?_⟩
  · simp only [handleServices, hsv, if_true, hlen, ite_false, hmeta]
  · intro hdp
    subst hdp
    exact assembleDetail_map meta base_url _ _

/-- C8 (amended), witness at a concrete detail request. -/
theorem c8_detail_document_amended_witness :
    handleServices [("a".toList, baseMeta)] [] "/services/a".toList
        "B".toList none false =
      some { status := 200
             headers := [(CONTENT_TYPE, "application/json".toList)]
             body := .json (.obj
               (assembleDetail baseMeta "B".toList "a".toList [] false)) } ∧
    lookupField (assembleDetail baseMeta "B".toList "a".toList [] false)
        "tiles".toList =
      some (.arr [.str (tileURLTemplate "B".toList "a".toList
        "png".toList [])]) ∧
    "{z}".toList <:+: tileURLTemplate "B".toList "a".toList "png".toList [] ∧
    lookupField (assembleDetail baseMeta "B".toList "a".toList [] false)
        "map".toList = some (.str (mapURL "B".toList "a".toList)) := by
  have h := c8_detail_document_amended [("a".toList, baseMeta)] []
    "/services/a".toList "B".toList "a".toList [] none false baseMeta
    (by decide) (by decide) rfl rfl rfl
    (by intro extra hx; simp [baseMeta] at hx)
  exact ⟨h.1, h.2.1, h.2.2.1, h.2.2.2.2.2.2 rfl⟩

end Mbtileserver
